import Mathlib

/-!
Verification of the deb re-versioning tool (`src/sync_debs_to_gemfury/deb_reversion.py`).

The Python source is shallowly embedded: text files are `List Char`, the
MULTILINE regular expressions of the source are modelled line by line
(`^`-anchored patterns can only match at positions following a newline, so a
match is always contained in one element of the newline split), and the
effectful `main` is a pure function from an environment record — holding the
process inputs and the results of the external black-box collaborators
(`dpkg-deb`, `dch`, gzip, md5) — to an outcome record of the observable final
state.  All definitions are executable so that concrete runs evaluate by
`decide`.
-/

namespace DebRev

/-- Split a character list at every occurrence of `sep`; mirrors Python
`str.split(sep)` for a one-character separator (and the line decomposition
used by `re.MULTILINE`).  The result is always nonempty and none of its
elements contains `sep`. -/
def splitOnChar (sep : Char) : List Char → List (List Char)
  | [] => [[]]
  | c :: cs =>
    let r := splitOnChar sep cs
    if c = sep then [] :: r
    else
      match r with
      | [] => [[c]]
      | l :: ls => (c :: l) :: ls

/-- Join pieces with a one-character separator; inverse of `splitOnChar`. -/
def joinWith (sep : Char) : List (List Char) → List Char
  | [] => []
  | [l] => l
  | l :: ls => l ++ sep :: joinWith sep ls

theorem splitOnChar_ne_nil (sep : Char) (t : List Char) : splitOnChar sep t ≠ [] := by
  induction t with
  | nil => simp [splitOnChar]
  | cons c cs ih =>
    simp only [splitOnChar]
    split
    · simp
    · split
      · simp
      · simp

theorem splitOnChar_exists_cons (sep : Char) (t : List Char) :
    ∃ m ms, splitOnChar sep t = m :: ms := by
  rcases h : splitOnChar sep t with _ | ⟨m, ms⟩
  · exact absurd h (splitOnChar_ne_nil sep t)
  · exact ⟨m, ms, rfl⟩

theorem mem_splitOnChar_not_sep (sep : Char) (t : List Char) :
    ∀ l ∈ splitOnChar sep t, sep ∉ l := by
  induction t with
  | nil => intro l hl; simp only [splitOnChar, List.mem_singleton] at hl; simp [hl]
  | cons c cs ih =>
    intro l hl
    obtain ⟨m, ms, hsplit⟩ := splitOnChar_exists_cons sep cs
    simp only [splitOnChar, hsplit] at hl
    by_cases hc : c = sep
    · rw [if_pos hc] at hl
      rcases List.mem_cons.mp hl with h | h
      · simp [h]
      · exact ih l (hsplit ▸ h)
    · rw [if_neg hc] at hl
      rcases List.mem_cons.mp hl with h | h
      · subst h
        intro hmem
        rcases List.mem_cons.mp hmem with h1 | h1
        · exact hc h1.symm
        · exact ih m (hsplit ▸ List.mem_cons_self m ms) h1
      · exact ih l (hsplit ▸ List.mem_cons_of_mem m h)

theorem joinWith_splitOnChar (sep : Char) (t : List Char) :
    joinWith sep (splitOnChar sep t) = t := by
  induction t with
  | nil => rfl
  | cons c cs ih =>
    obtain ⟨m, ms, hsplit⟩ := splitOnChar_exists_cons sep cs
    rw [hsplit] at ih
    simp only [splitOnChar, hsplit]
    by_cases hc : c = sep
    · rw [if_pos hc, hc]
      simpa [joinWith] using ih
    · rw [if_neg hc]
      rcases ms with _ | ⟨m2, ms2⟩
      · simpa [joinWith] using ih
      · simp only [joinWith] at ih ⊢
        rw [List.cons_append, ih]

theorem splitOnChar_of_not_mem (sep : Char) (l : List Char) (h : sep ∉ l) :
    splitOnChar sep l = [l] := by
  induction l with
  | nil => rfl
  | cons c cs ih =>
    simp only [splitOnChar]
    have hc : ¬c = sep := fun hcc => h (hcc ▸ List.mem_cons_self c cs)
    rw [if_neg hc, ih (fun hm => h (List.mem_cons_of_mem c hm))]

theorem splitOnChar_append_cons (sep : Char) (l r : List Char) (h : sep ∉ l) :
    splitOnChar sep (l ++ sep :: r) = l :: splitOnChar sep r := by
  induction l with
  | nil => simp [splitOnChar]
  | cons c cs ih =>
    have hc : ¬c = sep := fun hcc => h (hcc ▸ List.mem_cons_self c cs)
    have ih' := ih (fun hm => h (List.mem_cons_of_mem c hm))
    rw [List.cons_append]
    simp only [splitOnChar, ih', if_neg hc]

theorem splitOnChar_joinWith (sep : Char) (ls : List (List Char)) (hne : ls ≠ [])
    (h : ∀ l ∈ ls, sep ∉ l) : splitOnChar sep (joinWith sep ls) = ls := by
  induction ls with
  | nil => exact absurd rfl hne
  | cons l ls ih =>
    rcases ls with _ | ⟨m, ms⟩
    · simp only [joinWith]
      exact splitOnChar_of_not_mem sep l (h l (List.mem_cons_self l []))
    · have hl : sep ∉ l := h l (List.mem_cons_self l (m :: ms))
      simp only [joinWith]
      rw [splitOnChar_append_cons sep l _ hl]
      congr 1
      exact ih (by simp) (fun x hx => h x (List.mem_cons_of_mem l hx))

/-!
## The regex fragment used by `_update_changelog_file`

`re.sub(f"^[^ ]*( *){changelog_gz_path}$", ..., flags=re.MULTILINE)` embeds the
changelog path into the pattern without `re.escape`.  We model exactly the
fragment reachable from such patterns on CPython 3.11+ (the interpreter
required by the source, which uses `hashlib.file_digest` and
`contextlib.chdir`): single-character atoms (literal, `.`, the class `[^ ]`),
the quantifiers `+`, `*`, `?`, possessive quantifiers (`++`, `*+`, `?+`), lazy
quantifiers (`+?`, `*?`, `??`, language-equivalent to the greedy ones for the
question whether a full match exists), and the `multiple repeat` compile
error for any further stacked quantifier.
-/

/-- A single-character regex atom. -/
inductive RAtom
  | lit (c : Char)
  | dot
  | nonspace
deriving DecidableEq, Repr

/-- Quantifier attached to an atom.  `poss*` are the possessive forms of
CPython 3.11+: they consume the maximal run and never backtrack. -/
inductive Rep
  | one
  | star
  | plus
  | opt
  | possStar
  | possPlus
  | possOpt
deriving DecidableEq, Repr

def matchAtom : RAtom → Char → Bool
  | RAtom.lit c, d => c == d
  | RAtom.dot, d => !(d == Char.ofNat 10)
  | RAtom.nonspace, d => !(d == ' ')

/-- Length of the maximal run of characters matching `a` (used for the
possessive quantifiers). -/
def runLen (a : RAtom) : List Char → Nat
  | [] => 0
  | c :: cs => if matchAtom a c then runLen a cs + 1 else 0

/-- Fuel-indexed anchored matcher: does the token sequence match the whole
character list?  Every recursive call decreases the combined size of pattern
and input, so `matchSeq` below supplies sufficient fuel. -/
def matchSeqF : Nat → List (RAtom × Rep) → List Char → Bool
  | 0, _, _ => false
  | _ + 1, [], cs => cs.isEmpty
  | fuel + 1, (a, Rep.one) :: ps, cs =>
    match cs with
    | [] => false
    | c :: cs2 => matchAtom a c && matchSeqF fuel ps cs2
  | fuel + 1, (a, Rep.opt) :: ps, cs =>
    matchSeqF fuel ps cs ||
      (match cs with
       | [] => false
       | c :: cs2 => matchAtom a c && matchSeqF fuel ps cs2)
  | fuel + 1, (a, Rep.plus) :: ps, cs =>
    (match cs with
     | [] => false
     | c :: cs2 => matchAtom a c && matchSeqF fuel ((a, Rep.star) :: ps) cs2)
  | fuel + 1, (a, Rep.star) :: ps, cs =>
    matchSeqF fuel ps cs ||
      (match cs with
       | [] => false
       | c :: cs2 => matchAtom a c && matchSeqF fuel ((a, Rep.star) :: ps) cs2)
  | fuel + 1, (a, Rep.possStar) :: ps, cs =>
    matchSeqF fuel ps (cs.drop (runLen a cs))
  | fuel + 1, (a, Rep.possPlus) :: ps, cs =>
    if runLen a cs = 0 then false else matchSeqF fuel ps (cs.drop (runLen a cs))
  | fuel + 1, (a, Rep.possOpt) :: ps, cs =>
    match cs with
    | [] => matchSeqF fuel ps []
    | c :: cs2 => if matchAtom a c then matchSeqF fuel ps cs2 else matchSeqF fuel ps (c :: cs2)

def matchSeq (p : List (RAtom × Rep)) (cs : List Char) : Bool :=
  matchSeqF (p.length + cs.length + 1) p cs

/-- Compile one step of the pattern text: `prev` is the last atom seen (not
yet committed), `acc` the committed tokens.  Returns `none` on the CPython
`multiple repeat` compile error (a quantifier stacked on a possessive
quantifier, or `*` stacked on any quantifier).  Quantifier characters with no
preceding atom are also rejected; in the source pattern the embedded path is
always preceded by the group `( *)`, but every path interpolated by the
source starts with the literal `u` of `usr/share/doc/`, so that case is
unreachable there. -/
def compileRe : Option (RAtom × Rep) → List (RAtom × Rep) → List Char →
    Option (List (RAtom × Rep))
  | prev, acc, [] => some (acc ++ prev.toList)
  | prev, acc, c :: rest =>
    if c = '+' ∨ c = '*' ∨ c = '?' then
      match prev with
      | some (a, Rep.one) =>
        compileRe (some (a, if c = '+' then Rep.plus else if c = '*' then Rep.star
          else Rep.opt)) acc rest
      | some (a, Rep.plus) =>
        if c = '+' then compileRe (some (a, Rep.possPlus)) acc rest
        else if c = '?' then compileRe (some (a, Rep.plus)) acc rest
        else none
      | some (a, Rep.star) =>
        if c = '+' then compileRe (some (a, Rep.possStar)) acc rest
        else if c = '?' then compileRe (some (a, Rep.star)) acc rest
        else none
      | some (a, Rep.opt) =>
        if c = '+' then compileRe (some (a, Rep.possOpt)) acc rest
        else if c = '?' then compileRe (some (a, Rep.opt)) acc rest
        else none
      | _ => none
    else
      compileRe (some ((if c = '.' then RAtom.dot else RAtom.lit c), Rep.one))
        (acc ++ prev.toList) rest

/-- Compile the interpolated changelog path as CPython 3.11+ compiles it
inside the manifest pattern. -/
def compilePath (p : List Char) : Option (List (RAtom × Rep)) :=
  compileRe none [] p

/-- The full manifest-line pattern `^[^ ]*( *){path}$`: the class `[^ ]`
starred, the group `( *)` (a starred space; the group brackets do not change
which strings match), then the compiled path, anchored on both sides. -/
def md5LinePattern (pathTokens : List (RAtom × Rep)) : List (RAtom × Rep) :=
  (RAtom.nonspace, Rep.star) :: (RAtom.lit ' ', Rep.star) :: pathTokens

/-!
## Text operations of `deb_reversion.py`

`PACKAGE_RE = re.compile("^Package: (.+)", re.MULTILINE)` and
`VERSION_RE = re.compile("^Version: .*", re.MULTILINE)`.  Both patterns are
anchored at a line start and cannot match past a newline (`.` excludes
newline), so their `search`/`sub` act on the elements of the newline split,
in order.
-/

/-- One line of `PACKAGE_RE.search`: a match requires the literal prefix
`Package: ` followed by at least one character (`(.+)`); the group is the
whole remainder of the line. -/
def pkgLine (l : List Char) : Option (List Char) :=
  if "Package: ".data.isPrefixOf l ∧ "Package: ".data.length < l.length then
    some (l.drop "Package: ".data.length)
  else none

/-- `PACKAGE_RE.search(text)` followed by `match[1]`: the remainder of the
first line that starts with `Package: ` and is longer than the prefix. -/
def PACKAGE_RE_search (text : List Char) : Option (List Char) :=
  (splitOnChar (Char.ofNat 10) text).findSome? pkgLine

/-- One line of `VERSION_RE.sub`: a line starting with `Version: ` is
replaced wholesale by `Version: {new_version}` (the caller-supplied string
spliced in; we model replacement strings that contain no backslash escape,
which is every template the substitution is exact for). -/
def subVerLine (newVersion l : List Char) : List Char :=
  if "Version: ".data.isPrefixOf l then "Version: ".data ++ newVersion else l

/-- `VERSION_RE.sub(f"Version: {new_version}", control_text)`. -/
def VERSION_RE_sub (newVersion text : List Char) : List Char :=
  joinWith (Char.ofNat 10) ((splitOnChar (Char.ofNat 10) text).map (subVerLine newVersion))

/-- Python exceptions that can surface in `main`. -/
inductive PyErr
  | calledProcess (cmd : List Char)
  | runtime (msg : List Char)
  | reError (msg : List Char)
  | fileNotFound
  | indexError
deriving DecidableEq, Repr

/-- The checksum-manifest substitution of `_update_changelog_file`
(lines 52-57 of the source):

    re.sub(f"^[^ ]*( *){changelog_gz_path}$", f"{md5sum}\1{changelog_gz_path}",
           md5sums_text, flags=re.MULTILINE)

The pattern interpolates the path unescaped, so it is compiled as a regex
(`compilePath`); compilation may raise `re.error`.  The replacement template
is an f-string in which the two characters `\1` are the Python octal escape
for the character U+0001, not a backreference, so each matching line becomes
`md5sum ++ [U+0001] ++ path` -- the captured run of spaces is discarded.
A match of the pattern cannot span a newline here because every line of an
md5sums manifest contains a space (`[^ ]*` is the only token that could cross
a line boundary, and it cannot cross a line that contains a space before its
end); we therefore apply the anchored pattern line by line. -/
def md5sums_sub (md5sum path text : List Char) : Except PyErr (List Char) :=
  match compilePath path with
  | none => Except.error (PyErr.reError "multiple repeat".data)
  | some pr =>
    Except.ok (joinWith (Char.ofNat 10)
      ((splitOnChar (Char.ofNat 10) text).map (fun l =>
        if matchSeq (md5LinePattern pr) l then md5sum ++ Char.ofNat 1 :: path else l)))

/-!
## Replacement-template processing of `re.sub`

`VERSION_RE.sub(f"Version: {new_version}", control_text)` hands CPython the
replacement string `"Version: " + new_version`, which `re.sub` processes as
a template: backslash escapes in it are expanded (`\g<0>` to the whole
match, octal escapes to characters, `\n` and friends to control characters)
or rejected (`invalid group reference` for any numeric backreference, since
`VERSION_RE` has no groups; `bad escape` for unknown letter escapes) -- and
the template is parsed before any match is attempted, so these errors are
raised even on texts with no `Version:` line.  Each behaviour below was
checked against CPython 3.11.  `VERSION_RE_sub` above models the
substitution for backslash-free version strings (where the template is the
literal text); `VERSION_RE_sub_tpl` is the template-aware substitution.
-/

/-- A parsed piece of the replacement template: literal characters, or a
reference to group 0 (the only group of `VERSION_RE`), which expands to the
whole matched line. -/
inductive ReplChunk
  | lit (s : List Char)
  | groupRef
deriving DecidableEq, Repr

/-- Split at the first `>` (scanning a `\g<...>` group name). -/
def splitAtGt : List Char → Option (List Char × List Char)
  | [] => none
  | '>' :: rest => some ([], rest)
  | c :: rest => (splitAtGt rest).map (fun pr => (c :: pr.1, pr.2))

def isOct (c : Char) : Bool :=
  decide ('0' ≤ c) && decide (c ≤ '7')

def octDigit (c : Char) : Nat :=
  c.toNat - 48

/-- Numeric value of a digit string (for `\g<12>` style references). -/
def digitsVal (s : List Char) : Nat :=
  s.foldl (fun acc c => acc * 10 + (c.toNat - 48)) 0

/-- `\0` consumed: read up to two further octal digits, as CPython does. -/
def parseOct0 : List Char → Char × List Char
  | [] => (Char.ofNat 0, [])
  | c1 :: rest1 =>
    if isOct c1 then
      match rest1 with
      | c2 :: rest2 =>
        if isOct c2 then (Char.ofNat (octDigit c1 * 8 + octDigit c2), rest2)
        else (Char.ofNat (octDigit c1), rest1)
      | [] => (Char.ofNat (octDigit c1), [])
    else (Char.ofNat 0, c1 :: rest1)

/-- Fuel-indexed template parser, mirroring CPython `parse_template` for a
zero-group pattern: `\g<0>` is a group-0 reference; `\g<n>` with n > 0 and
`\n n` numeric backreferences are `invalid group reference`; three octal
digits (`\111`, or `\0` plus up to two) are a character escape; `\n`, `\t`,
`\r`, `\a`, `\b`, `\f`, `\v`, `\\` are the control escapes; any other
letter escape is `bad escape`; a backslash before a non-alphanumeric
character stays as both characters; a trailing backslash is an error.
Every step consumes at least one character, so `parseTemplate` below always
supplies sufficient fuel. -/
def parseTemplateF : Nat → List Char → Except PyErr (List ReplChunk)
  | 0, _ => Except.error (PyErr.reError "template fuel exhausted".data)
  | _ + 1, [] => Except.ok []
  | fuel + 1, c0 :: rest =>
    if c0 = '\\' then
      match rest with
      | [] => Except.error (PyErr.reError "bad escape (end of pattern)".data)
      | 'g' :: rest2 =>
        match rest2 with
        | '<' :: rest3 =>
          match splitAtGt rest3 with
          | none => Except.error (PyErr.reError "missing >, unterminated name".data)
          | some (name, rest4) =>
            if name = [] then Except.error (PyErr.reError "missing group name".data)
            else if name.all Char.isDigit then
              if digitsVal name = 0 then
                (parseTemplateF fuel rest4).map (fun ch => ReplChunk.groupRef :: ch)
              else Except.error (PyErr.reError "invalid group reference".data)
            else Except.error (PyErr.reError "unknown group name".data)
        | _ => Except.error (PyErr.reError "missing <".data)
      | c :: rest2 =>
        if c = '0' then
          let pr := parseOct0 rest2
          (parseTemplateF fuel pr.2).map (fun ch => ReplChunk.lit [pr.1] :: ch)
        else if c.isDigit then
          match rest2 with
          | d2 :: d3 :: rest3 =>
            if d2.isDigit && isOct c && isOct d2 && isOct d3 then
              (parseTemplateF fuel rest3).map (fun ch =>
                ReplChunk.lit
                  [Char.ofNat (octDigit c * 64 + octDigit d2 * 8 + octDigit d3)] :: ch)
            else Except.error (PyErr.reError "invalid group reference".data)
          | _ => Except.error (PyErr.reError "invalid group reference".data)
        else if c = 'n' then
          (parseTemplateF fuel rest2).map (fun ch => ReplChunk.lit [Char.ofNat 10] :: ch)
        else if c = 't' then
          (parseTemplateF fuel rest2).map (fun ch => ReplChunk.lit [Char.ofNat 9] :: ch)
        else if c = 'r' then
          (parseTemplateF fuel rest2).map (fun ch => ReplChunk.lit [Char.ofNat 13] :: ch)
        else if c = 'a' then
          (parseTemplateF fuel rest2).map (fun ch => ReplChunk.lit [Char.ofNat 7] :: ch)
        else if c = 'b' then
          (parseTemplateF fuel rest2).map (fun ch => ReplChunk.lit [Char.ofNat 8] :: ch)
        else if c = 'f' then
          (parseTemplateF fuel rest2).map (fun ch => ReplChunk.lit [Char.ofNat 12] :: ch)
        else if c = 'v' then
          (parseTemplateF fuel rest2).map (fun ch => ReplChunk.lit [Char.ofNat 11] :: ch)
        else if c = '\\' then
          (parseTemplateF fuel rest2).map (fun ch => ReplChunk.lit ['\\'] :: ch)
        else if c.isAlpha then
          Except.error (PyErr.reError "bad escape".data)
        else
          (parseTemplateF fuel rest2).map (fun ch => ReplChunk.lit ['\\', c] :: ch)
    else
      (parseTemplateF fuel rest).map (fun ch => ReplChunk.lit [c0] :: ch)

def parseTemplate (s : List Char) : Except PyErr (List ReplChunk) :=
  parseTemplateF (s.length + 1) s

/-- Expand a parsed template at one match; group 0 is the matched line. -/
def applyTemplate (matched : List Char) : List ReplChunk → List Char
  | [] => []
  | ReplChunk.lit s :: ch => s ++ applyTemplate matched ch
  | ReplChunk.groupRef :: ch => matched ++ applyTemplate matched ch

/-- `VERSION_RE.sub(f"Version: {new_version}", text)` with the replacement
processed as a template: parse `"Version: " ++ new_version` first (raising
`re.error` independently of the text, as CPython does), then replace each
line beginning `Version: ` by the template expanded at that line. -/
def VERSION_RE_sub_tpl (newVersion text : List Char) : Except PyErr (List Char) :=
  match parseTemplate ("Version: ".data ++ newVersion) with
  | Except.error e => Except.error e
  | Except.ok chunks =>
    Except.ok (joinWith (Char.ofNat 10)
      ((splitOnChar (Char.ofNat 10) text).map (fun l =>
        if "Version: ".data.isPrefixOf l then applyTemplate l chunks else l)))

/-!
## Filesystem-path helpers (`os.path.abspath` on POSIX)

`os.path.abspath(p)` is `normpath(join(getcwd(), p))`.
-/

/-- `posixpath.join(a, b)` for two components. -/
def pyJoin (a b : List Char) : List Char :=
  if b.head? = some '/' then b
  else if a = [] ∨ a.getLast? = some '/' then a ++ b
  else a ++ '/' :: b

/-- The component scan of `posixpath.normpath`: drop empty and `.`
components; `..` pops a previous real component, is kept at the start of a
relative path or after a kept `..`, and disappears at the root of an
absolute path.  `acc` holds the kept components in reverse. -/
def normComps (isAbs : Bool) (acc : List (List Char)) : List (List Char) → List (List Char)
  | [] => acc.reverse
  | c :: rest =>
    if c = [] ∨ c = ['.'] then normComps isAbs acc rest
    else if c = ['.', '.'] then
      match acc with
      | [] => if isAbs then normComps isAbs [] rest else normComps isAbs [['.', '.']] rest
      | d :: ds =>
        if d = ['.', '.'] then normComps isAbs (c :: acc) rest else normComps isAbs ds rest
    else normComps isAbs (c :: acc) rest

/-- `posixpath.normpath` (CPython: empty path gives `.`, exactly two leading
slashes are preserved, otherwise leading slashes collapse to one). -/
def normpath (p : List Char) : List Char :=
  if p = [] then ['.']
  else
    let isAbs := decide (p.head? = some '/')
    let dbl := isAbs && decide ((p.drop 1).head? = some '/')
      && !(decide ((p.drop 2).head? = some '/'))
    let body := joinWith '/' (normComps isAbs [] (splitOnChar '/' p))
    let out := (if dbl then ['/', '/'] else if isAbs then ['/'] else []) ++ body
    if out = [] then ['.'] else out

/-- `os.path.abspath(p)` with current working directory `cwd`. -/
def pyAbspath (cwd p : List Char) : List Char :=
  normpath (pyJoin cwd p)

/-!
## The pipeline of `main`

`main` is embedded as a pure function.  The filesystem inside the staging
tree is the association list `payload` (relative path, file bytes) for the
extracted payload, plus the separate control-metadata texts
`controlText` (`DEBIAN/control`) and `md5sumsText` (`DEBIAN/md5sums`).  The
external collaborators are oracles in the environment: a success flag for
each subprocess invocation and a function for each data-producing black box
(gzip both ways, `dch`, md5, `dpkg-deb -b`).  The outcome records the
observable final state: the exit status (`Except.ok n` for `SystemExit(n)`,
`Except.error e` for an uncaught exception), the bytes at the resolved
archive path, the staged texts at repack time, what was printed, which
changelog candidates were probed (`tried`) and processed, and the target of
the final `shutil.move` if it happened. -/

structure Env where
  euid : Nat
  argv : List (List Char)
  cwd : List Char
  archive : List Nat
  extractOk : Bool
  controlOk : Bool
  controlText : List Char
  md5sumsText : List Char
  payload : List (List Char × List Nat)
  gunzip : List Nat → List Nat
  gzipC : List Nat → List Nat
  dchOk : Bool
  dch : List Char → List Nat → List Nat
  md5hex : List Nat → List Char
  buildOk : Bool
  build : List Char → List Char → List (List Char × List Nat) → List Nat
  rmtreeErr : Option PyErr

deriving instance DecidableEq for Except

structure Outcome where
  exitCode : Except PyErr Nat
  stdout : List (List Char)
  archivePath : List Char
  archive : List Nat
  controlOut : List Char
  md5sumsOut : List Char
  payloadOut : List (List Char × List Nat)
  tried : List (List Char)
  processed : Option (List Char)
  movedTo : Option (List Char)
deriving DecidableEq, Repr

/-- `os.path.isfile` / reading a payload file, on the association list. -/
def lookupFile : List (List Char × List Nat) → List Char → Option (List Nat)
  | [], _ => none
  | (k, v) :: rest, p => if k = p then some v else lookupFile rest p

/-- Overwriting an existing payload file (the recompressed changelog is only
ever written to a path that passed the `os.path.isfile` guard). -/
def setFile : List (List Char × List Nat) → List Char → List Nat →
    List (List Char × List Nat)
  | [], _, _ => []
  | (k, w) :: rest, p, v =>
    if k = p then (p, v) :: setFile rest p v else (k, w) :: setFile rest p v

/-- `f"usr/share/doc/{package_name}/{item}"`. -/
def docPath (pkg item : List Char) : List Char :=
  "usr/share/doc/".data ++ pkg ++ "/".data ++ item

/-- `str(exc)` for the exceptions interpolated into the warning. -/
def pyErrStr : PyErr → List Char
  | PyErr.calledProcess cmd => "Command ".data ++ cmd ++ " returned non-zero exit status 1.".data
  | PyErr.runtime m => m
  | PyErr.reError m => "re.error: ".data ++ m
  | PyErr.fileNotFound => "FileNotFoundError".data
  | PyErr.indexError => "IndexError: list index out of range".data

/-- The warning printed when `_update_changelog_file` raises
`CalledProcessError` (lines 96-99 of the source). -/
def warnMsg (e : PyErr) : List Char :=
  "WARNING: Failed to update changelog file: ".data ++ pyErrStr e
    ++ "\nLeaving the changelog file unchanged.".data

/-- The message printed before `SystemExit(77)` when the effective uid is
not 0 (lines 66-69). -/
def privMsg : List Char :=
  "Please run this as root/fakeroot to ensure proper ownership in the resulting deb archive.".data

/-- Message of the `RuntimeError` raised when `PACKAGE_RE` finds no match
(lines 85-87); `Char.ofNat 39` is the apostrophe of the source text. -/
def pkgErrMsg : List Char :=
  "Could not find the package name in deb".data ++ Char.ofNat 39 :: "s control file.".data

/-- `_ignore_file_not_found`, the `shutil.rmtree` error hook: swallow
`FileNotFoundError`, re-raise anything else. -/
def ignore_file_not_found (e : PyErr) : Option PyErr :=
  if e = PyErr.fileNotFound then none else some e

/-- `_update_changelog_file(changelog_gz_path, new_version)` (lines 25-59):
decompress the changelog, run `dch` (fails with `CalledProcessError` when
the tool exits non-zero, in which case the compressed file has not been
rewritten), recompress over the original path, then rewrite the md5sums
manifest line via `md5sums_sub`.  Returns the updated payload and manifest
text. -/
def update_changelog_file (env : Env) (path newVersion : List Char)
    (pay : List (List Char × List Nat)) (md5s : List Char) :
    Except PyErr (List (List Char × List Nat) × List Char) :=
  let plain := env.gunzip ((lookupFile pay path).getD [])
  if env.dchOk = false then Except.error (PyErr.calledProcess "dch".data)
  else
    let gz := env.gzipC (env.dch newVersion plain)
    let md5sum := env.md5hex gz
    match md5sums_sub md5sum path md5s with
    | Except.error e => Except.error e
    | Except.ok t => Except.ok (setFile pay path gz, t)

/-- Intermediate state of the changelog `for` loop (lines 90-100). -/
structure ClogState where
  tried : List (List Char)
  processed : Option (List Char)
  payload : List (List Char × List Nat)
  md5sums : List Char
  warn : List (List Char)
  err : Option PyErr

/-- The `for item in ("changelog.gz", "changelog.Debian.gz")` loop: probe the
candidates in order; the first existing one is processed and the loop
`break`s, so later candidates are not even probed.  `CalledProcessError`
from the update is downgraded to a printed warning; any other exception
escapes the `try` and becomes `err`. -/
def changelogLoop (env : Env) (pkg newVersion : List Char)
    (pay : List (List Char × List Nat)) (md5s : List Char) :
    List (List Char) → ClogState
  | [] => ⟨[], none, pay, md5s, [], none⟩
  | item :: rest =>
    let path := docPath pkg item
    if (lookupFile pay path).isSome then
      match update_changelog_file env path newVersion pay md5s with
      | Except.ok (pay2, md2) => ⟨[path], some path, pay2, md2, [], none⟩
      | Except.error (PyErr.calledProcess c) =>
        ⟨[path], some path, pay, md5s, [warnMsg (PyErr.calledProcess c)], none⟩
      | Except.error e => ⟨[path], some path, pay, md5s, [], some e⟩
    else
      let r := changelogLoop env pkg newVersion pay md5s rest
      { r with tried := path :: r.tried }

/-- Outcome template: nothing printed, nothing moved, staged files as
extracted, archive bytes untouched. -/
def baseOut (env : Env) (debPath : List Char) : Outcome :=
  { exitCode := Except.ok 0, stdout := [], archivePath := debPath,
    archive := env.archive, controlOut := env.controlText,
    md5sumsOut := env.md5sumsText, payloadOut := env.payload,
    tried := [], processed := none, movedTo := none }

/-- The body of `main` after the privilege check succeeded (lines 72-108):
extract payload and control (each a fatal `CalledProcessError` on failure),
find the package name (fatal `RuntimeError` when absent), substitute the
version, run the changelog loop, write the control file, remove the `debian`
staging directory, repack, and only then move the new archive over the
original path. -/
def mainPrivileged (env : Env) (debPath newVersion : List Char) : Outcome :=
  if env.extractOk = false then
    { baseOut env debPath with
      exitCode := Except.error (PyErr.calledProcess "dpkg-deb --extract".data) }
  else if env.controlOk = false then
    { baseOut env debPath with
      exitCode := Except.error (PyErr.calledProcess "dpkg-deb --control".data) }
  else
    match PACKAGE_RE_search env.controlText with
    | none => { baseOut env debPath with exitCode := Except.error (PyErr.runtime pkgErrMsg) }
    | some pkg =>
      let newControl := VERSION_RE_sub newVersion env.controlText
      let r := changelogLoop env pkg newVersion env.payload env.md5sumsText
        ["changelog.gz".data, "changelog.Debian.gz".data]
      match r.err with
      | some e =>
        { baseOut env debPath with
          exitCode := Except.error e, stdout := r.warn,
          md5sumsOut := r.md5sums, payloadOut := r.payload,
          tried := r.tried, processed := r.processed }
      | none =>
        match Option.bind env.rmtreeErr ignore_file_not_found with
        | some e =>
          { baseOut env debPath with
            exitCode := Except.error e, stdout := r.warn, controlOut := newControl,
            md5sumsOut := r.md5sums, payloadOut := r.payload,
            tried := r.tried, processed := r.processed }
        | none =>
          if env.buildOk = false then
            { baseOut env debPath with
              exitCode := Except.error (PyErr.calledProcess "dpkg-deb -b".data),
              stdout := r.warn, controlOut := newControl,
              md5sumsOut := r.md5sums, payloadOut := r.payload,
              tried := r.tried, processed := r.processed }
          else
            { exitCode := Except.ok 0, stdout := r.warn, archivePath := debPath,
              archive := env.build newControl r.md5sums r.payload,
              controlOut := newControl, md5sumsOut := r.md5sums,
              payloadOut := r.payload, tried := r.tried, processed := r.processed,
              movedTo := some debPath }

/-- `main()` (lines 62-110): `sys.argv[1]` and `sys.argv[2]` are read first
(an `IndexError` escapes if they are missing), the input path is resolved
against the initial working directory, then the effective-uid check prints
its message and exits 77, and only then does any filesystem work start. -/
def main (env : Env) : Outcome :=
  match env.argv with
  | _ :: p :: v :: _ =>
    let debPath := pyAbspath env.cwd p
    if env.euid ≠ 0 then
      { baseOut env debPath with exitCode := Except.ok 77, stdout := [privMsg] }
    else mainPrivileged env debPath v
  | _ => { baseOut env [] with exitCode := Except.error PyErr.indexError }

/-!
## Helper lemmas about the version substitution
-/

theorem isPrefixOf_append_self (p s : List Char) : p.isPrefixOf (p ++ s) = true := by
  induction p with
  | nil => simp [List.isPrefixOf]
  | cons c cs ih => simp [List.isPrefixOf, ih]

theorem pkg_not_ver (l : List Char) (h : "Package: ".data.isPrefixOf l) :
    "Version: ".data.isPrefixOf l = false := by
  cases l with
  | nil => simp [List.isPrefixOf] at h
  | cons c cs =>
    have hp : "Package: ".data = 'P' :: "ackage: ".data := rfl
    have hv : "Version: ".data = 'V' :: "ersion: ".data := rfl
    rw [hp] at h
    rw [hv]
    simp only [List.isPrefixOf, Bool.and_eq_true, beq_iff_eq] at h
    obtain ⟨h1, _⟩ := h
    subst h1
    simp [List.isPrefixOf]

theorem subVerLine_idem (V l : List Char) :
    subVerLine V (subVerLine V l) = subVerLine V l := by
  by_cases h : "Version: ".data.isPrefixOf l
  · simp only [subVerLine, if_pos h, isPrefixOf_append_self, if_pos]
  · simp only [subVerLine, if_neg h]

theorem nl_not_mem_map_subVerLine (V t : List Char) (hV : Char.ofNat 10 ∉ V) :
    ∀ l ∈ (splitOnChar (Char.ofNat 10) t).map (subVerLine V), Char.ofNat 10 ∉ l := by
  intro l hl
  obtain ⟨x, hx, rfl⟩ := List.mem_map.mp hl
  by_cases h : "Version: ".data.isPrefixOf x
  · simp only [subVerLine, if_pos h]
    intro hmem
    rcases List.mem_append.mp hmem with h1 | h1
    · exact absurd h1 (by decide)
    · exact hV h1
  · simp only [subVerLine, if_neg h]
    exact mem_splitOnChar_not_sep (Char.ofNat 10) t x hx

theorem splitOnChar_VERSION_RE_sub (V t : List Char) (hV : Char.ofNat 10 ∉ V) :
    splitOnChar (Char.ofNat 10) (VERSION_RE_sub V t)
      = (splitOnChar (Char.ofNat 10) t).map (subVerLine V) := by
  unfold VERSION_RE_sub
  refine splitOnChar_joinWith _ _ ?_ (nl_not_mem_map_subVerLine V t hV)
  intro hmap
  exact splitOnChar_ne_nil (Char.ofNat 10) t (List.map_eq_nil_iff.mp hmap)

theorem count_map_subVerLine (V : List Char) (ls : List (List Char)) :
    (ls.map (subVerLine V)).count ("Version: ".data ++ V)
      = ls.countP (fun l => "Version: ".data.isPrefixOf l) := by
  induction ls with
  | nil => rfl
  | cons x xs ih =>
    rw [List.map_cons, List.count_cons, List.countP_cons, ih]
    by_cases h : "Version: ".data.isPrefixOf x
    · have hx : subVerLine V x = "Version: ".data ++ V := by simp [subVerLine, h]
      rw [hx]
      simp [h]
    · have hx : subVerLine V x = x := by simp [subVerLine, h]
      have hne : ¬(x = "Version: ".data ++ V) := by
        intro hEq
        rw [hEq] at h
        exact h (by rw [isPrefixOf_append_self])
      rw [hx]
      simp [h]
      exact hne

theorem map_subVerLine_of_no_ver (V : List Char) (ls : List (List Char))
    (h : ∀ l ∈ ls, ¬("Version: ".data.isPrefixOf l = true)) :
    ls.map (subVerLine V) = ls := by
  induction ls with
  | nil => rfl
  | cons x xs ih =>
    have hx : ¬("Version: ".data.isPrefixOf x = true) := h x (List.mem_cons_self x xs)
    rw [List.map_cons, ih (fun l hl => h l (List.mem_cons_of_mem x hl))]
    simp [subVerLine, hx]

/-- C2 counterexample: control metadata with two `Version:` lines contains a
line beginning `Version: `, yet after substitution with V = `1` the result
contains two lines `Version: 1`, not exactly one. -/
theorem VERSION_RE_sub_not_unique_cex :
    (∃ l ∈ splitOnChar (Char.ofNat 10) "Version: a\nVersion: b".data,
        "Version: ".data.isPrefixOf l)
    ∧ ¬((splitOnChar (Char.ofNat 10)
          (VERSION_RE_sub "1".data "Version: a\nVersion: b".data)).count
            "Version: 1".data = 1) := by
  constructor
  · exact ⟨"Version: a".data, by decide, by decide⟩
  · decide

/-- C2 (amended): for a new version string without newline (backslash
template escapes, which CPython would expand or reject, also excluded), the
substitution maps every line through `subVerLine`: when the control text has
exactly one line beginning `Version: `, the result has exactly one line
`Version: {V}`; lines beginning `Package: ` are never rewritten; and when no
line begins `Version: `, the text is returned unchanged. -/
theorem VERSION_RE_sub_amended (V t : List Char) (hV : Char.ofNat 10 ∉ V) :
    splitOnChar (Char.ofNat 10) (VERSION_RE_sub V t)
        = (splitOnChar (Char.ofNat 10) t).map (subVerLine V)
    ∧ ((splitOnChar (Char.ofNat 10) t).countP
          (fun l => "Version: ".data.isPrefixOf l) = 1 →
        (splitOnChar (Char.ofNat 10) (VERSION_RE_sub V t)).count
          ("Version: ".data ++ V) = 1)
    ∧ (∀ l ∈ splitOnChar (Char.ofNat 10) t,
        "Package: ".data.isPrefixOf l → subVerLine V l = l)
    ∧ ((splitOnChar (Char.ofNat 10) t).countP
          (fun l => "Version: ".data.isPrefixOf l) = 0 →
        VERSION_RE_sub V t = t) := by
  refine ⟨splitOnChar_VERSION_RE_sub V t hV, ?_, ?_, ?_⟩
  · intro h1
    rw [splitOnChar_VERSION_RE_sub V t hV, count_map_subVerLine, h1]
  · intro l _ hp
    simp [subVerLine, pkg_not_ver l hp]
  · intro h0
    unfold VERSION_RE_sub
    rw [map_subVerLine_of_no_ver V _ (List.countP_eq_zero.mp h0),
      joinWith_splitOnChar]

/-- C2 witness: the amended statement evaluated on a control text with one
`Version:` line and one `Package:` line. -/
theorem VERSION_RE_sub_amended_witness :
    Char.ofNat 10 ∉ "2".data
    ∧ (splitOnChar (Char.ofNat 10)
          (VERSION_RE_sub "2".data "Package: pkg\nVersion: 1".data)
        = (splitOnChar (Char.ofNat 10) "Package: pkg\nVersion: 1".data).map
            (subVerLine "2".data)
      ∧ ((splitOnChar (Char.ofNat 10) "Package: pkg\nVersion: 1".data).countP
            (fun l => "Version: ".data.isPrefixOf l) = 1 →
          (splitOnChar (Char.ofNat 10)
              (VERSION_RE_sub "2".data "Package: pkg\nVersion: 1".data)).count
            ("Version: ".data ++ "2".data) = 1)
      ∧ (∀ l ∈ splitOnChar (Char.ofNat 10) "Package: pkg\nVersion: 1".data,
          "Package: ".data.isPrefixOf l → subVerLine "2".data l = l)
      ∧ ((splitOnChar (Char.ofNat 10) "Package: pkg\nVersion: 1".data).countP
            (fun l => "Version: ".data.isPrefixOf l) = 0 →
          VERSION_RE_sub "2".data "Package: pkg\nVersion: 1".data
            = "Package: pkg\nVersion: 1".data)) :=
  ⟨by decide, VERSION_RE_sub_amended "2".data "Package: pkg\nVersion: 1".data (by decide)⟩

/-- The verbatim substitution is idempotent for a newline-free version
string: every line it produced is either untouched or already the
replacement line, which `subVerLine` maps to itself. -/
theorem verbatim_sub_idem (V t : List Char) (hV : Char.ofNat 10 ∉ V) :
    VERSION_RE_sub V (VERSION_RE_sub V t) = VERSION_RE_sub V t := by
  have hmapidem : ∀ ls : List (List Char),
      (ls.map (subVerLine V)).map (subVerLine V) = ls.map (subVerLine V) := by
    intro ls
    induction ls with
    | nil => rfl
    | cons x xs ih => simp [List.map_cons, subVerLine_idem, ih]
  conv_lhs => rw [VERSION_RE_sub]
  rw [splitOnChar_VERSION_RE_sub V t hV, hmapidem]
  rfl

/-- A backslash-free template parses to its own characters as literals. -/
theorem parseTemplateF_no_backslash (s : List Char) :
    ∀ fuel, s.length < fuel → '\\' ∉ s →
      parseTemplateF fuel s = Except.ok (s.map (fun c => ReplChunk.lit [c])) := by
  induction s with
  | nil =>
    intro fuel hf _
    cases fuel with
    | zero => exact absurd hf (by simp)
    | succ f => rfl
  | cons c rest ih =>
    intro fuel hf h
    cases fuel with
    | zero => exact absurd hf (by simp)
    | succ f =>
      have hc : ¬c = '\\' := fun hcc => h (hcc ▸ List.mem_cons_self c rest)
      have hrest : '\\' ∉ rest := fun hm => h (List.mem_cons_of_mem c hm)
      have hlen : rest.length < f := by
        simpa using Nat.lt_of_succ_lt_succ hf
      simp only [parseTemplateF, if_neg hc, ih f hlen hrest, Except.map, List.map_cons]

theorem applyTemplate_map_lit (m s : List Char) :
    applyTemplate m (s.map (fun c => ReplChunk.lit [c])) = s := by
  induction s with
  | nil => rfl
  | cons c rest ih => simp [applyTemplate, ih]

/-- For a backslash-free version string the template-aware substitution is
the verbatim one. -/
theorem VERSION_RE_sub_tpl_eq_plain (V t : List Char) (hB : '\\' ∉ V) :
    VERSION_RE_sub_tpl V t = Except.ok (VERSION_RE_sub V t) := by
  have htpl : '\\' ∉ ("Version: ".data ++ V) := by
    intro hm
    rcases List.mem_append.mp hm with h | h
    · exact absurd h (by decide)
    · exact hB h
  have hparse : parseTemplate ("Version: ".data ++ V)
      = Except.ok (("Version: ".data ++ V).map (fun c => ReplChunk.lit [c])) :=
    parseTemplateF_no_backslash _ _ (Nat.lt_succ_self _) htpl
  simp only [VERSION_RE_sub_tpl, hparse, applyTemplate_map_lit]
  rfl

/-- C8 counterexample: the substitution is not idempotent for every V the
caller can supply, because `re.sub` processes the replacement as a template.
With V = `\g<0>`, a text whose version line is already exactly `Version: V`
is rewritten to `Version: Version: \g<0>` (the group-0 reference expands to
the whole matched line), so the version line is no longer `Version: V`;
and with V = `\4` the substitution raises `re.error` instead of operating
at all. -/
theorem VERSION_RE_sub_tpl_not_idem_cex :
    "Version: \\g<0>".data = "Version: ".data ++ "\\g<0>".data
    ∧ VERSION_RE_sub_tpl "\\g<0>".data "Version: \\g<0>".data
        = Except.ok "Version: Version: \\g<0>".data
    ∧ "Version: Version: \\g<0>".data ≠ "Version: ".data ++ "\\g<0>".data
    ∧ VERSION_RE_sub_tpl "\\4".data "Version: \\4".data
        = Except.error (PyErr.reError "invalid group reference".data) := by
  exact ⟨by decide, by decide, by decide, by decide⟩

/-- C8 (amended): for a version string containing no backslash (so the
replacement template inserts it verbatim instead of expanding or rejecting
template escapes) and no newline (presupposed by `Version: V` being a
line), the substitution is idempotent: it coincides with the verbatim
substitution, re-applying it to an already substituted text returns that
text unchanged, and so the version line is still exactly `Version: V`. -/
theorem VERSION_RE_sub_tpl_idem (V t : List Char)
    (hV : Char.ofNat 10 ∉ V) (hB : '\\' ∉ V) :
    VERSION_RE_sub_tpl V t = Except.ok (VERSION_RE_sub V t)
    ∧ VERSION_RE_sub_tpl V (VERSION_RE_sub V t) = Except.ok (VERSION_RE_sub V t)
    ∧ VERSION_RE_sub V (VERSION_RE_sub V t) = VERSION_RE_sub V t :=
  ⟨VERSION_RE_sub_tpl_eq_plain V t hB,
   (VERSION_RE_sub_tpl_eq_plain V (VERSION_RE_sub V t) hB).trans
     (congrArg Except.ok (verbatim_sub_idem V t hV)),
   verbatim_sub_idem V t hV⟩

/-- C8 witness: the amended statement at the backslash-free version `2`. -/
theorem VERSION_RE_sub_tpl_idem_witness :
    (Char.ofNat 10 ∉ "2".data ∧ '\\' ∉ "2".data)
    ∧ (VERSION_RE_sub_tpl "2".data "Package: pkg\nVersion: 1".data
        = Except.ok (VERSION_RE_sub "2".data "Package: pkg\nVersion: 1".data)
      ∧ VERSION_RE_sub_tpl "2".data
          (VERSION_RE_sub "2".data "Package: pkg\nVersion: 1".data)
        = Except.ok (VERSION_RE_sub "2".data "Package: pkg\nVersion: 1".data)
      ∧ VERSION_RE_sub "2".data
          (VERSION_RE_sub "2".data "Package: pkg\nVersion: 1".data)
        = VERSION_RE_sub "2".data "Package: pkg\nVersion: 1".data) :=
  ⟨⟨by decide, by decide⟩,
   VERSION_RE_sub_tpl_idem "2".data "Package: pkg\nVersion: 1".data
     (by decide) (by decide)⟩

/-- C1: the checksum-manifest substitution at a concrete manifest: the line
for the changelog path is matched, but the replacement joins the new
checksum and the path with the control character U+0001 -- the f-string
`f"{md5sum}\1{changelog_gz_path}"` contains the octal escape `\1` = U+0001
rather than a backreference to the captured whitespace run, so the
whitespace separator is not preserved verbatim as the spec requires. -/
theorem md5sums_sub_ctrl_char_bug :
    md5sums_sub "ab".data "usr/share/doc/pkg/changelog.gz".data
        "cd  usr/share/doc/pkg/changelog.gz".data
      = Except.ok ("ab".data ++ Char.ofNat 1 :: "usr/share/doc/pkg/changelog.gz".data)
    ∧ "ab".data ++ Char.ofNat 1 :: "usr/share/doc/pkg/changelog.gz".data
      ≠ "ab  usr/share/doc/pkg/changelog.gz".data := by
  exact ⟨by decide, by decide⟩

/-!
## Helper lemmas about the pipeline
-/

theorem lookupFile_setFile_ne (pay : List (List Char × List Nat)) (p q : List Char)
    (v : List Nat) (h : q ≠ p) :
    lookupFile (setFile pay p v) q = lookupFile pay q := by
  induction pay with
  | nil => rfl
  | cons kv rest ih =>
    obtain ⟨k, w⟩ := kv
    by_cases hk : k = p
    · simp only [setFile, if_pos hk, lookupFile]
      rw [if_neg (fun hpq => h hpq.symm), if_neg (fun hkq => h (hkq.symm.trans hk))]
      exact ih
    · simp only [setFile, if_neg hk, lookupFile]
      by_cases hkq : k = q
      · rw [if_pos hkq, if_pos hkq]
      · rw [if_neg hkq, if_neg hkq]
        exact ih

theorem update_changelog_file_payload (env : Env) (path newV : List Char)
    (pay pay2 : List (List Char × List Nat)) (md5s md2 : List Char)
    (h : update_changelog_file env path newV pay md5s = Except.ok (pay2, md2)) :
    ∀ q, q ≠ path → lookupFile pay2 q = lookupFile pay q := by
  simp only [update_changelog_file] at h
  split at h
  · exact absurd h (by simp)
  · split at h
    · exact absurd h (by simp)
    · injection h with h'
      have hp2 : pay2 = setFile pay path
          (env.gzipC (env.dch newV (env.gunzip ((lookupFile pay path).getD [])))) :=
        (congrArg Prod.fst h').symm
      intro q hq
      rw [hp2]
      exact lookupFile_setFile_ne _ _ _ _ hq

theorem changelogLoop_found (env : Env) (pkg newV : List Char)
    (pay : List (List Char × List Nat)) (md5s : List Char) (item : List Char)
    (rest : List (List Char))
    (hfile : (lookupFile pay (docPath pkg item)).isSome = true) :
    (changelogLoop env pkg newV pay md5s (item :: rest)).tried = [docPath pkg item]
    ∧ (changelogLoop env pkg newV pay md5s (item :: rest)).processed
        = some (docPath pkg item)
    ∧ ∀ q, q ≠ docPath pkg item →
        lookupFile (changelogLoop env pkg newV pay md5s (item :: rest)).payload q
          = lookupFile pay q := by
  simp only [changelogLoop, hfile, if_true]
  rcases hu : update_changelog_file env (docPath pkg item) newV pay md5s with e | pr
  · cases e <;> simp
  · obtain ⟨pay2, md2⟩ := pr
    refine ⟨rfl, rfl, ?_⟩
    intro q hq
    exact update_changelog_file_payload env _ newV pay pay2 md5s md2 hu q hq

theorem changelogLoop_found_dchFail (env : Env) (pkg newV : List Char)
    (pay : List (List Char × List Nat)) (md5s : List Char) (item : List Char)
    (rest : List (List Char))
    (hfile : (lookupFile pay (docPath pkg item)).isSome = true)
    (hdch : env.dchOk = false) :
    changelogLoop env pkg newV pay md5s (item :: rest)
      = ⟨[docPath pkg item], some (docPath pkg item), pay, md5s,
         [warnMsg (PyErr.calledProcess "dch".data)], none⟩ := by
  simp [changelogLoop, hfile, update_changelog_file, hdch]

theorem changelogLoop_not_found (env : Env) (pkg newV : List Char)
    (pay : List (List Char × List Nat)) (md5s : List Char) (item : List Char)
    (rest : List (List Char))
    (h : lookupFile pay (docPath pkg item) = none) :
    changelogLoop env pkg newV pay md5s (item :: rest)
      = { changelogLoop env pkg newV pay md5s rest with
          tried := docPath pkg item :: (changelogLoop env pkg newV pay md5s rest).tried } := by
  simp [changelogLoop, h]

theorem mainPrivileged_ok_or_untouched (env : Env) (d v : List Char) :
    (mainPrivileged env d v).exitCode = Except.ok 0
    ∨ (mainPrivileged env d v).archive = env.archive := by
  simp only [mainPrivileged]
  repeat' split
  all_goals simp [baseOut]

theorem mainPrivileged_archivePath (env : Env) (d v : List Char) :
    (mainPrivileged env d v).archivePath = d := by
  simp only [mainPrivileged]
  repeat' split
  all_goals simp [baseOut]

theorem mainPrivileged_moved_cases (env : Env) (d v : List Char) :
    ((mainPrivileged env d v).exitCode = Except.ok 0
      ∧ (mainPrivileged env d v).movedTo = some d)
    ∨ ((mainPrivileged env d v).exitCode ≠ Except.ok 0
      ∧ (mainPrivileged env d v).movedTo = none) := by
  simp only [mainPrivileged]
  repeat' split
  all_goals simp [baseOut]

theorem mainPrivileged_loop_fields (env : Env) (d v pkg : List Char)
    (hex : env.extractOk = true) (hctl : env.controlOk = true)
    (hpkg : PACKAGE_RE_search env.controlText = some pkg) :
    (mainPrivileged env d v).tried
        = (changelogLoop env pkg v env.payload env.md5sumsText
            ["changelog.gz".data, "changelog.Debian.gz".data]).tried
    ∧ (mainPrivileged env d v).processed
        = (changelogLoop env pkg v env.payload env.md5sumsText
            ["changelog.gz".data, "changelog.Debian.gz".data]).processed
    ∧ (mainPrivileged env d v).payloadOut
        = (changelogLoop env pkg v env.payload env.md5sumsText
            ["changelog.gz".data, "changelog.Debian.gz".data]).payload
    ∧ (mainPrivileged env d v).md5sumsOut
        = (changelogLoop env pkg v env.payload env.md5sumsText
            ["changelog.gz".data, "changelog.Debian.gz".data]).md5sums := by
  simp only [mainPrivileged, hex, hctl, hpkg]
  repeat' split
  all_goals simp_all [baseOut]

theorem docPath_second_ne_first (pkg : List Char) :
    docPath pkg "changelog.Debian.gz".data ≠ docPath pkg "changelog.gz".data := by
  intro h
  unfold docPath at h
  exact absurd (List.append_cancel_left h) (by decide)

/-- Spec-side reading of the package-name extraction, written from the spec
sentence: scan the lines in order; the name is everything after the prefix
`Package: ` of the first line that begins with it (and has a nonempty
remainder, as `(.+)` requires at least one character); later lines are not
consulted. -/
def firstPackageLine : List (List Char) → Option (List Char)
  | [] => none
  | l :: ls =>
    if "Package: ".data.isPrefixOf l ∧ "Package: ".data.length < l.length then
      some (l.drop "Package: ".data.length)
    else firstPackageLine ls

theorem PACKAGE_RE_search_eq_first (t : List Char) :
    PACKAGE_RE_search t = firstPackageLine (splitOnChar (Char.ofNat 10) t) := by
  unfold PACKAGE_RE_search
  generalize splitOnChar (Char.ofNat 10) t = ls
  induction ls with
  | nil => rfl
  | cons x xs ih =>
    by_cases hp : "Package: ".data.isPrefixOf x ∧ "Package: ".data.length < x.length
    · have hq : pkgLine x = some (x.drop "Package: ".data.length) := by
        simp only [pkgLine, if_pos hp]
      simp only [List.findSome?, firstPackageLine, hq, if_pos hp]
    · have hq : pkgLine x = none := by
        simp only [pkgLine, if_neg hp]
      simp only [List.findSome?, firstPackageLine, hq, if_neg hp]
      exact ih

/-!
## Sample environments for witnesses and concrete runs

`sampleEnv` is a fully successful run: privileged, well-formed control text,
one changelog candidate present, every external tool succeeding.  The other
environments perturb one aspect each.
-/

def sampleEnv : Env :=
  { euid := 0, argv := ["prog".data, "x.deb".data, "2".data], cwd := "/w".data,
    archive := [7], extractOk := true, controlOk := true,
    controlText := "Package: pkg\nVersion: 1".data,
    md5sumsText := "cd  usr/share/doc/pkg/changelog.gz".data,
    payload := [("usr/share/doc/pkg/changelog.gz".data, [0])],
    gunzip := id, gzipC := id, dchOk := true, dch := fun _ b => b ++ [1],
    md5hex := fun _ => "ab".data, buildOk := true, build := fun _ _ _ => [9],
    rmtreeErr := none }

/-- C5: on every run that does not terminate with `SystemExit(0)` -- wrong
privilege, missing arguments, extraction or repack failure, missing
`Package:` field, or any uncaught exception -- the bytes at the input
archive path are unchanged: `shutil.move` over the original file is the
last action of a successful run only. -/
theorem archive_untouched_on_failure (env : Env)
    (h : (main env).exitCode ≠ Except.ok 0) :
    (main env).archive = env.archive := by
  rcases harg : env.argv with _ | ⟨a, tl⟩
  · simp [main, harg, baseOut]
  rcases tl with _ | ⟨p, tl2⟩
  · simp [main, harg, baseOut]
  rcases tl2 with _ | ⟨v, rest⟩
  · simp [main, harg, baseOut]
  by_cases he : env.euid = 0
  · have hmain : main env = mainPrivileged env (pyAbspath env.cwd p) v := by
      simp [main, harg, he]
    rw [hmain] at h ⊢
    exact (mainPrivileged_ok_or_untouched env (pyAbspath env.cwd p) v).resolve_left h
  · simp [main, harg, he, baseOut]

/-- C5 witness: a run whose archive extraction fails exits abnormally and
leaves the original archive bytes in place. -/
theorem archive_untouched_on_failure_witness :
    (main { sampleEnv with extractOk := false }).exitCode ≠ Except.ok 0
    ∧ (main { sampleEnv with extractOk := false }).archive
        = ({ sampleEnv with extractOk := false } : Env).archive :=
  ⟨by decide, archive_untouched_on_failure { sampleEnv with extractOk := false } (by decide)⟩

/-- C7: the package name is the remainder of the first line of the control
text that begins with `Package: ` and has a nonempty remainder (the
multi-line first-match search for `^Package: (.+)`), and when no such line
exists the run fails with the descriptive `RuntimeError` while the original
archive is untouched and nothing was moved over it. -/
theorem package_field_required (env : Env) (a p v : List Char) (rest : List (List Char))
    (hargv : env.argv = a :: p :: v :: rest) (heuid : env.euid = 0)
    (hex : env.extractOk = true) (hctl : env.controlOk = true) :
    PACKAGE_RE_search env.controlText
        = firstPackageLine (splitOnChar (Char.ofNat 10) env.controlText)
    ∧ (PACKAGE_RE_search env.controlText = none →
        (main env).exitCode = Except.error (PyErr.runtime pkgErrMsg)
        ∧ (main env).archive = env.archive
        ∧ (main env).movedTo = none) := by
  refine ⟨PACKAGE_RE_search_eq_first env.controlText, ?_⟩
  intro hn
  have hmain : main env = mainPrivileged env (pyAbspath env.cwd p) v := by
    simp [main, hargv, heuid]
  rw [hmain]
  simp [mainPrivileged, hex, hctl, hn, baseOut]

/-- C7 witness: a control text without a `Package:` line makes the run
abort with the `RuntimeError` before the archive is touched. -/
theorem package_field_required_witness :
    PACKAGE_RE_search ({ sampleEnv with controlText := "Name: x\nVersion: 1".data } : Env).controlText
        = firstPackageLine (splitOnChar (Char.ofNat 10)
            ({ sampleEnv with controlText := "Name: x\nVersion: 1".data } : Env).controlText)
    ∧ (PACKAGE_RE_search
          ({ sampleEnv with controlText := "Name: x\nVersion: 1".data } : Env).controlText = none →
        (main { sampleEnv with controlText := "Name: x\nVersion: 1".data }).exitCode
            = Except.error (PyErr.runtime pkgErrMsg)
        ∧ (main { sampleEnv with controlText := "Name: x\nVersion: 1".data }).archive
            = ({ sampleEnv with controlText := "Name: x\nVersion: 1".data } : Env).archive
        ∧ (main { sampleEnv with controlText := "Name: x\nVersion: 1".data }).movedTo = none) :=
  package_field_required { sampleEnv with controlText := "Name: x\nVersion: 1".data }
    "prog".data "x.deb".data "2".data [] rfl rfl rfl rfl

/-- C3: when a changelog file exists but `dch` exits non-zero, the
`CalledProcessError` is caught: the run still exits 0 (the remaining steps
succeeding), the payload -- in particular the compressed changelog file --
is exactly as extracted, and the warning naming the failure is printed. -/
theorem changelog_tool_failure_advisory (env : Env) (a p v pkg : List Char)
    (rest : List (List Char))
    (hargv : env.argv = a :: p :: v :: rest) (heuid : env.euid = 0)
    (hex : env.extractOk = true) (hctl : env.controlOk = true)
    (hpkg : PACKAGE_RE_search env.controlText = some pkg)
    (hfile : (lookupFile env.payload (docPath pkg "changelog.gz".data)).isSome = true
      ∨ (lookupFile env.payload (docPath pkg "changelog.gz".data) = none
        ∧ (lookupFile env.payload
            (docPath pkg "changelog.Debian.gz".data)).isSome = true))
    (hdch : env.dchOk = false)
    (hbuild : env.buildOk = true) (hrm : env.rmtreeErr = none) :
    (main env).exitCode = Except.ok 0
    ∧ (main env).payloadOut = env.payload
    ∧ (main env).stdout = [warnMsg (PyErr.calledProcess "dch".data)] := by
  have hmain : main env = mainPrivileged env (pyAbspath env.cwd p) v := by
    simp [main, hargv, heuid]
  rw [hmain]
  rcases hfile with h1 | ⟨h1, h2⟩
  · have hloop := changelogLoop_found_dchFail env pkg v env.payload env.md5sumsText
      "changelog.gz".data ["changelog.Debian.gz".data] h1 hdch
    simp [mainPrivileged, hex, hctl, hpkg, hloop, hrm, hbuild, baseOut]
  · have hloop2 := changelogLoop_found_dchFail env pkg v env.payload env.md5sumsText
      "changelog.Debian.gz".data [] h2 hdch
    have hloop := changelogLoop_not_found env pkg v env.payload env.md5sumsText
      "changelog.gz".data ["changelog.Debian.gz".data] h1
    rw [hloop2] at hloop
    simp [mainPrivileged, hex, hctl, hpkg, hloop, hrm, hbuild, baseOut]

/-- C3 witness: in the sample run with `dch` failing, the run exits 0, the
payload is untouched and the warning is printed. -/
theorem changelog_tool_failure_advisory_witness :
    (main { sampleEnv with dchOk := false }).exitCode = Except.ok 0
    ∧ (main { sampleEnv with dchOk := false }).payloadOut
        = ({ sampleEnv with dchOk := false } : Env).payload
    ∧ (main { sampleEnv with dchOk := false }).stdout
        = [warnMsg (PyErr.calledProcess "dch".data)] :=
  changelog_tool_failure_advisory { sampleEnv with dchOk := false }
    "prog".data "x.deb".data "2".data "pkg".data [] rfl rfl rfl rfl (by decide)
    (Or.inl (by decide)) rfl rfl rfl

/-- C4 counterexample: invoked with no positional arguments and without the
required privilege, the run dies of `IndexError` while reading
`sys.argv[1]` -- before the euid check -- so it neither prints the
remediation message nor exits 77: the claimed behaviour does not hold
regardless of argument validity. -/
theorem priv_check_missing_args_cex :
    ({ sampleEnv with euid := 5, argv := ["prog".data] } : Env).euid ≠ 0
    ∧ (main { sampleEnv with euid := 5, argv := ["prog".data] }).exitCode
        = Except.error PyErr.indexError
    ∧ (main { sampleEnv with euid := 5, argv := ["prog".data] }).exitCode
        ≠ Except.ok 77
    ∧ (main { sampleEnv with euid := 5, argv := ["prog".data] }).stdout = [] := by
  exact ⟨by decide, by decide, by decide, by decide⟩

/-- C4 (amended): provided both positional arguments are present, a run
without effective uid 0 prints the remediation message to standard output,
exits with the distinguished status 77, and performs no filesystem
mutation: archive bytes, control text, manifest and payload are all left as
they were, and nothing is moved. -/
theorem priv_check_exit77 (env : Env) (a p v : List Char) (rest : List (List Char))
    (hargv : env.argv = a :: p :: v :: rest) (h : env.euid ≠ 0) :
    (main env).exitCode = Except.ok 77
    ∧ (main env).stdout = [privMsg]
    ∧ (main env).archive = env.archive
    ∧ (main env).controlOut = env.controlText
    ∧ (main env).md5sumsOut = env.md5sumsText
    ∧ (main env).payloadOut = env.payload
    ∧ (main env).movedTo = none := by
  simp [main, hargv, h, baseOut]

/-- C4 witness: the amended statement at a concrete unprivileged
environment with both arguments present but an archive path that need not
be valid. -/
theorem priv_check_exit77_witness :
    ({ sampleEnv with euid := 5 } : Env).euid ≠ 0
    ∧ ((main { sampleEnv with euid := 5 }).exitCode = Except.ok 77
      ∧ (main { sampleEnv with euid := 5 }).stdout = [privMsg]
      ∧ (main { sampleEnv with euid := 5 }).archive
          = ({ sampleEnv with euid := 5 } : Env).archive
      ∧ (main { sampleEnv with euid := 5 }).controlOut
          = ({ sampleEnv with euid := 5 } : Env).controlText
      ∧ (main { sampleEnv with euid := 5 }).md5sumsOut
          = ({ sampleEnv with euid := 5 } : Env).md5sumsText
      ∧ (main { sampleEnv with euid := 5 }).payloadOut
          = ({ sampleEnv with euid := 5 } : Env).payload
      ∧ (main { sampleEnv with euid := 5 }).movedTo = none) :=
  ⟨by decide, priv_check_exit77 { sampleEnv with euid := 5 }
    "prog".data "x.deb".data "2".data [] rfl (by decide)⟩

/-- C6: the changelog candidates are probed in the fixed order
`changelog.gz`, then `changelog.Debian.gz`.  When the first exists it is
the only candidate probed and the only payload path possibly rewritten (the
second name is never examined or touched); when neither exists the
checksum manifest is unchanged, no candidate is processed, and the run
still exits 0 when repack and cleanup succeed. -/
theorem changelog_candidates_order (env : Env) (a p v pkg : List Char)
    (rest : List (List Char))
    (hargv : env.argv = a :: p :: v :: rest) (heuid : env.euid = 0)
    (hex : env.extractOk = true) (hctl : env.controlOk = true)
    (hpkg : PACKAGE_RE_search env.controlText = some pkg) :
    ((lookupFile env.payload (docPath pkg "changelog.gz".data)).isSome = true →
        (main env).tried = [docPath pkg "changelog.gz".data]
        ∧ (main env).processed = some (docPath pkg "changelog.gz".data)
        ∧ lookupFile (main env).payloadOut (docPath pkg "changelog.Debian.gz".data)
            = lookupFile env.payload (docPath pkg "changelog.Debian.gz".data))
    ∧ (lookupFile env.payload (docPath pkg "changelog.gz".data) = none →
        lookupFile env.payload (docPath pkg "changelog.Debian.gz".data) = none →
        env.buildOk = true → env.rmtreeErr = none →
        (main env).exitCode = Except.ok 0
        ∧ (main env).md5sumsOut = env.md5sumsText
        ∧ (main env).tried = [docPath pkg "changelog.gz".data,
            docPath pkg "changelog.Debian.gz".data]
        ∧ (main env).processed = none) := by
  have hmain : main env = mainPrivileged env (pyAbspath env.cwd p) v := by
    simp [main, hargv, heuid]
  obtain ⟨ht, hproc, hpay, hmd⟩ :=
    mainPrivileged_loop_fields env (pyAbspath env.cwd p) v pkg hex hctl hpkg
  constructor
  · intro h1
    obtain ⟨lt, lp, lpay⟩ := changelogLoop_found env pkg v env.payload env.md5sumsText
      "changelog.gz".data ["changelog.Debian.gz".data] h1
    rw [hmain, ht, hproc, hpay, lt, lp]
    exact ⟨rfl, rfl, lpay _ (docPath_second_ne_first pkg)⟩
  · intro h1 h2 hbuild hrm
    have hloop : changelogLoop env pkg v env.payload env.md5sumsText
        ["changelog.gz".data, "changelog.Debian.gz".data]
        = ⟨[docPath pkg "changelog.gz".data, docPath pkg "changelog.Debian.gz".data],
           none, env.payload, env.md5sumsText, [], none⟩ := by
      rw [changelogLoop_not_found env pkg v env.payload env.md5sumsText
        "changelog.gz".data ["changelog.Debian.gz".data] h1]
      rw [changelogLoop_not_found env pkg v env.payload env.md5sumsText
        "changelog.Debian.gz".data [] h2]
      rfl
    rw [hmain]
    simp [mainPrivileged, hex, hctl, hpkg, hloop, hbuild, hrm, baseOut]

/-- C6 witness: in the sample run the first candidate exists, so only it is
probed and processed and the second path is untouched. -/
theorem changelog_candidates_order_witness :
    (main sampleEnv).tried = [docPath "pkg".data "changelog.gz".data]
    ∧ (main sampleEnv).processed = some (docPath "pkg".data "changelog.gz".data)
    ∧ lookupFile (main sampleEnv).payloadOut
          (docPath "pkg".data "changelog.Debian.gz".data)
        = lookupFile sampleEnv.payload (docPath "pkg".data "changelog.Debian.gz".data) :=
  (changelog_candidates_order sampleEnv "prog".data "x.deb".data "2".data "pkg".data []
    rfl rfl rfl rfl (by decide)).1 (by decide)

/-- C9: `os.path.abspath(sys.argv[1])` is evaluated before any change of
working directory, so for a relative input path the archive path used by
the final `shutil.move` is the path resolved against the initial working
directory, and a successful run moves the repacked archive exactly there. -/
theorem input_path_resolved_against_initial_cwd (env : Env) (a p v : List Char)
    (rest : List (List Char))
    (hargv : env.argv = a :: p :: v :: rest)
    (hrel : p.head? ≠ some '/')
    (hcwd : env.cwd ≠ []) (hsl : env.cwd.getLast? ≠ some '/') :
    (main env).archivePath = normpath (env.cwd ++ '/' :: p)
    ∧ ((main env).exitCode = Except.ok 0 →
        (main env).movedTo = some (normpath (env.cwd ++ '/' :: p))) := by
  have hjoin : pyJoin env.cwd p = env.cwd ++ '/' :: p := by
    rw [pyJoin, if_neg hrel, if_neg]
    rintro (h | h)
    · exact hcwd h
    · exact hsl h
  have habs : pyAbspath env.cwd p = normpath (env.cwd ++ '/' :: p) := by
    rw [pyAbspath, hjoin]
  by_cases he : env.euid = 0
  · have hmain : main env = mainPrivileged env (pyAbspath env.cwd p) v := by
      simp [main, hargv, he]
    rw [hmain]
    constructor
    · rw [mainPrivileged_archivePath, habs]
    · intro hok
      rcases mainPrivileged_moved_cases env (pyAbspath env.cwd p) v with hc | hc
      · rw [hc.2, habs]
      · exact absurd hok hc.1
  · have hmain : main env
        = { baseOut env (pyAbspath env.cwd p) with
            exitCode := Except.ok 77, stdout := [privMsg] } := by
      simp [main, hargv, he]
    rw [hmain]
    refine ⟨by simp [baseOut, habs], ?_⟩
    intro hok
    exact absurd hok (by simp [baseOut])

/-- C9 witness: the sample run with relative input `x.deb` and initial
working directory `/w` moves the repacked archive to `/w/x.deb`. -/
theorem input_path_resolved_witness :
    sampleEnv.cwd ≠ [] ∧
    ((main sampleEnv).archivePath = normpath (sampleEnv.cwd ++ '/' :: "x.deb".data)
    ∧ ((main sampleEnv).exitCode = Except.ok 0 →
        (main sampleEnv).movedTo
          = some (normpath (sampleEnv.cwd ++ '/' :: "x.deb".data)))) :=
  ⟨by decide, input_path_resolved_against_initial_cwd sampleEnv
    "prog".data "x.deb".data "2".data [] rfl (by decide) (by decide) (by decide)⟩

/-- Environment whose package is named `g++`: the interpolated manifest
pattern compiles (CPython 3.11+ reads `g++` as a possessive quantifier) but
no longer matches the literal manifest line. -/
def envGxx : Env :=
  { sampleEnv with
    controlText := "Package: g++\nVersion: 1".data,
    md5sumsText := "cd  usr/share/doc/g++/changelog.gz".data,
    payload := [("usr/share/doc/g++/changelog.gz".data, [0])] }

/-- Environment whose package is named `a+++`: the interpolated manifest
pattern does not even compile (`re.error: multiple repeat`), and `re.error`
is not a `CalledProcessError`, so it escapes the advisory handler. -/
def envAppp : Env :=
  { sampleEnv with
    controlText := "Package: a+++\nVersion: 1".data,
    md5sumsText := "cd  usr/share/doc/a+++/changelog.gz".data,
    payload := [("usr/share/doc/a+++/changelog.gz".data, [0])] }

/-- C10: the changelog path is spliced into the manifest pattern without
escaping, so it is interpreted as a regex.  For package `g++` the run
exits 0 but the manifest line is not located: the manifest text is
unchanged even though the changelog file content was rewritten (a stale
checksum).  For package `a+++` the pattern raises `re.error`, which the
`except CalledProcessError` handler does not catch, so the whole run aborts
(no warning printed, archive untouched). -/
theorem unescaped_path_regex_hazard :
    ((main envGxx).exitCode = Except.ok 0
      ∧ (main envGxx).md5sumsOut = envGxx.md5sumsText
      ∧ lookupFile (main envGxx).payloadOut "usr/share/doc/g++/changelog.gz".data
          ≠ lookupFile envGxx.payload "usr/share/doc/g++/changelog.gz".data)
    ∧ ((main envAppp).exitCode = Except.error (PyErr.reError "multiple repeat".data)
      ∧ (main envAppp).archive = envAppp.archive
      ∧ (main envAppp).stdout = []) := by
  exact ⟨⟨by decide, by decide, by decide⟩, ⟨by decide, by decide, by decide⟩⟩

end DebRev
